import Mathlib

/-!
Verification development for a four-stage batch ETL pipeline
(extract / transform / load / analytics).  The definitions below are a
shallow embedding of the pipeline's transformation, load and analytics
logic; pandas column operations are modelled as per-row functions
(column operations in the source act value-wise on aligned columns, so
the two views agree), machine floats are modelled as rationals, and the
relational store and the processed-snapshot files are modelled as
explicit state records.  Fallible operations return `Option` / `Except`.
-/

/-! ## Python string primitives used by the transformer -/

/-- Model of Python `str.lower` on a single character, restricted to the
ASCII letters that actually occur in the pipeline's data (the source
lower-cases e-mail addresses). -/
def py_lower_char (c : Char) : Char :=
  if c = 'A' then 'a' else if c = 'B' then 'b' else if c = 'C' then 'c'
  else if c = 'D' then 'd' else if c = 'E' then 'e' else if c = 'F' then 'f'
  else if c = 'G' then 'g' else if c = 'H' then 'h' else if c = 'I' then 'i'
  else if c = 'J' then 'j' else if c = 'K' then 'k' else if c = 'L' then 'l'
  else if c = 'M' then 'm' else if c = 'N' then 'n' else if c = 'O' then 'o'
  else if c = 'P' then 'p' else if c = 'Q' then 'q' else if c = 'R' then 'r'
  else if c = 'S' then 's' else if c = 'T' then 't' else if c = 'U' then 'u'
  else if c = 'V' then 'v' else if c = 'W' then 'w' else if c = 'X' then 'x'
  else if c = 'Y' then 'y' else if c = 'Z' then 'z' else c

/-- Model of Python `str.lower` (pandas `.str.lower()`). -/
def py_lower (s : String) : String :=
  String.mk (s.toList.map py_lower_char)

/-- Number of occurrences of a character in a character list. -/
def count_char (c : Char) : List Char → Nat
  | [] => 0
  | a :: rest => (if a = c then 1 else 0) + count_char c rest

/-- Model of Python `str.split(sep)` for a one-character separator
(pandas `.str.split(sep)`): splits at every occurrence of the
separator; the empty string splits to `[""]`. -/
def split_on_char (c : Char) : List Char → List (List Char)
  | [] => [[]]
  | a :: rest =>
      if a = c then [] :: split_on_char c rest
      else
        match split_on_char c rest with
        | [] => [[a]]
        | h :: t => (a :: h) :: t

/-- The part of a character list strictly before the first occurrence of
`c` (the whole list when `c` does not occur). -/
def before_char (c : Char) : List Char → List Char
  | [] => []
  | a :: rest => if a = c then [] else a :: before_char c rest

/-- The part of a character list strictly after the first occurrence of
`c` (empty when `c` does not occur). -/
def after_char (c : Char) : List Char → List Char
  | [] => []
  | a :: rest => if a = c then rest else after_char c rest

/-- Helper for `py_split_ws`: accumulates the current word (reversed). -/
def py_split_ws_aux : List Char → List Char → List (List Char)
  | acc, [] => if acc.isEmpty then [] else [acc.reverse]
  | acc, c :: rest =>
      if c.isWhitespace then
        if acc.isEmpty then py_split_ws_aux [] rest
        else acc.reverse :: py_split_ws_aux [] rest
      else py_split_ws_aux (c :: acc) rest

/-- Model of Python `str.split()` with no argument (pandas
`.str.split()`): whitespace-delimited tokens, runs collapsed, no empty
tokens. -/
def py_split_ws (cs : List Char) : List (List Char) :=
  py_split_ws_aux [] cs

/-! ## Numeric and timestamp coercions -/

/-- Value of a digit string, most significant digit first. -/
def digits_value (cs : List Char) : Nat :=
  cs.foldl (fun n c => n * 10 + (c.toNat - 48)) 0

/-- True when every character is an ASCII digit. -/
def all_digits (cs : List Char) : Bool :=
  cs.all Char.isDigit

/-- Model of Python `str.strip()` (pandas `.str.strip()`): removes
leading and trailing whitespace. -/
def py_strip (s : String) : String :=
  String.mk (((s.toList.dropWhile Char.isWhitespace).reverse.dropWhile
    Char.isWhitespace).reverse)

/-- Model of the numeric grammar accepted by `pd.to_numeric` for the
pipeline's data: optional sign, decimal digits, optional fractional
part.  Returns `none` (NaN) when the string is not of this shape. -/
def parse_decimal (s : String) : Option Rat :=
  let cs0 := s.toList
  let sgn : Int :=
    match cs0 with
    | '-' :: _ => -1
    | _ => 1
  let cs : List Char :=
    match cs0 with
    | '-' :: rest => rest
    | '+' :: rest => rest
    | _ => cs0
  match split_on_char '.' cs with
  | [ip] =>
      if ip.isEmpty then none
      else if all_digits ip then
        some ((sgn : Rat) * (digits_value ip : Rat))
      else none
  | [ip, fp] =>
      if ip.isEmpty && fp.isEmpty then none
      else if all_digits ip && all_digits fp then
        some ((sgn : Rat) * (digits_value (ip ++ fp) : Rat)
              / ((10 : Rat) ^ fp.length))
      else none
  | _ => none

/-- Model of `pd.to_numeric(value, errors="coerce")` applied to an
optional raw string: absent values and unparsable strings coerce to
NaN, modelled as `none` (surrounding whitespace is tolerated, as in
pandas). -/
def to_numeric_coerce (v : Option String) : Option Rat :=
  v.bind fun s => parse_decimal (py_strip s)

/-- Recognizer for the timestamp strings accepted by the model of
`pd.to_datetime`: an ISO `YYYY-MM-DD` prefix. -/
def is_iso_date_prefix (s : String) : Bool :=
  match s.toList with
  | y1 :: y2 :: y3 :: y4 :: '-' :: m1 :: m2 :: '-' :: d1 :: d2 :: _ =>
      all_digits [y1, y2, y3, y4, m1, m2, d1, d2]
  | _ => false

/-- Model of `pd.to_datetime(value, errors="coerce")`: a parsable
timestamp is kept, an unparsable one becomes NaT (`none`) instead of
raising. -/
def to_datetime_coerce (s : String) : Option String :=
  if is_iso_date_prefix s then some s else none

/-- Model of pandas `.str[:n]` / Python `s[:n]`: the first `n`
characters of a string. -/
def str_truncate (n : Nat) (s : String) : String :=
  String.mk (s.toList.take n)

/-! ## Raw records (transform.py input shapes) -/

/-- Raw nested `geo` block of a user's address; each sub-field may be
absent. -/
structure RawGeo where
  lat : Option String
  lng : Option String
deriving DecidableEq

/-- Raw nested `address` block; `geo` may be absent
(`x.get("geo", {})` in the source). -/
structure RawAddress where
  city : Option String
  zipcode : Option String
  geo : Option RawGeo
deriving DecidableEq

/-- Raw nested `company` block. -/
structure RawCompany where
  name : Option String
  catchPhrase : Option String
deriving DecidableEq

/-- Raw user record as fetched from the API.  `address = none` /
`company = none` models the block being absent or not a dict (the
source guards each access with `isinstance(x, dict)`). -/
structure RawUser where
  id : Int
  username : String
  name : String
  email : String
  phone : String
  website : String
  address : Option RawAddress
  company : Option RawCompany
deriving DecidableEq

/-- Raw post record as fetched from the API. -/
structure RawPost where
  id : Int
  userId : Int
  title : String
  body : String
deriving DecidableEq

/-! ## Normalized user rows (transform.py, transform_users_data) -/

/-- A cell of the final users frame that held a float column before the
frame-wide `fillna("")`: either a numeric value or a string (the
empty-string filler). -/
inductive NumOrStr where
  | num : Rat → NumOrStr
  | str : String → NumOrStr
deriving DecidableEq

/-- True when the cell holds a numeric value. -/
def NumOrStr.isNum : NumOrStr → Bool
  | NumOrStr.num _ => true
  | NumOrStr.str _ => false

/-- Normalized user row as computed column by column in
`transform_users_data`, before the final `fillna("")`.  The columns
that can hold NaN at this point (`lat`, `lng`, `email_domain`) are
`Option`-valued. -/
structure UserRowPre where
  user_id : Int
  username : String
  name : String
  email : String
  phone : String
  website : String
  city : String
  zipcode : String
  lat : Option Rat
  lng : Option Rat
  company_name : String
  company_catchphrase : String
  email_domain : Option String
  has_coordinates : Bool
  created_at : String
deriving DecidableEq

/-- Normalized user row after the frame-wide `fillna("")`. -/
structure UserRow where
  user_id : Int
  username : String
  name : String
  email : String
  phone : String
  website : String
  city : String
  zipcode : String
  lat : NumOrStr
  lng : NumOrStr
  company_name : String
  company_catchphrase : String
  email_domain : String
  has_coordinates : Bool
  created_at : String
deriving DecidableEq

/-- One row of `transform_users_data` before the final `fillna("")`:
every column assignment of the source, specialized to one record.
`ts` is the `datetime.now().isoformat()` string shared by the call. -/
def transform_user_pre (ts : String) (u : RawUser) : UserRowPre :=
  let emailLower := py_lower u.email
  let latv := to_numeric_coerce ((u.address.bind fun a => a.geo).bind fun g => g.lat)
  let lngv := to_numeric_coerce ((u.address.bind fun a => a.geo).bind fun g => g.lng)
  { user_id := u.id
  , username := u.username
  , name := u.name
  , email := emailLower
  , phone := u.phone
  , website := u.website
  , city := match u.address with
            | some a => a.city.getD ""
            | none => ""
  , zipcode := match u.address with
               | some a => a.zipcode.getD ""
               | none => ""
  , lat := latv
  , lng := lngv
  , company_name := match u.company with
                    | some co => co.name.getD ""
                    | none => ""
  , company_catchphrase := match u.company with
                           | some co => co.catchPhrase.getD ""
                           | none => ""
  , email_domain := ((split_on_char '@' emailLower.toList).get? 1).map
                      fun cs => String.mk cs
  , has_coordinates := !(latv.isNone || lngv.isNone)
  , created_at := ts }

/-- `fillna("")` on an optional numeric cell: NaN becomes the empty
string. -/
def fillna_numeric : Option Rat → NumOrStr
  | some q => NumOrStr.num q
  | none => NumOrStr.str ""

/-- `fillna("")` on an optional string cell. -/
def fillna_string : Option String → String
  | some s => s
  | none => ""

/-- The frame-wide `df_transformed.fillna("")` of `transform_users_data`,
acting on one row: the only columns that can hold NaN are `lat`, `lng`
and `email_domain`. -/
def user_fillna (r : UserRowPre) : UserRow :=
  { user_id := r.user_id
  , username := r.username
  , name := r.name
  , email := r.email
  , phone := r.phone
  , website := r.website
  , city := r.city
  , zipcode := r.zipcode
  , lat := fillna_numeric r.lat
  , lng := fillna_numeric r.lng
  , company_name := r.company_name
  , company_catchphrase := r.company_catchphrase
  , email_domain := fillna_string r.email_domain
  , has_coordinates := r.has_coordinates
  , created_at := r.created_at }

/-- `transform_users_data`.  On the empty list `pd.DataFrame([])` has no
columns and the very first column access `df["id"]` raises `KeyError`,
modelled as `none`; otherwise every derived column is computed
record-wise and the final `fillna("")` is applied. -/
def transform_users_data (ts : String) (users_data : List RawUser) :
    Option (List UserRow) :=
  match users_data with
  | [] => none
  | _ :: _ => some (users_data.map fun u => user_fillna (transform_user_pre ts u))

/-! ## Normalized post rows (transform.py, transform_posts_data) -/

/-- Normalized post row. -/
structure PostRow where
  post_id : Int
  user_id : Int
  title : String
  body : String
  title_length : Nat
  body_length : Nat
  word_count : Nat
  created_at : String
  post_category : String
deriving DecidableEq

/-- Model of
`pd.cut(body_length, bins=[0, 100, 200, inf], labels=[...]).astype(str)`
on one value: `pd.cut` uses right-closed, left-open bins, so the bins
are `(0,100]`, `(100,200]`, `(200,inf]`; a value outside every bin
(here only `0`) is NaN, which `astype(str)` renders as `"nan"`. -/
def post_category_of (n : Nat) : String :=
  if 0 < n ∧ n ≤ 100 then "short"
  else if 100 < n ∧ n ≤ 200 then "medium"
  else if 200 < n then "long"
  else "nan"

/-- One row of `transform_posts_data`: every column assignment of the
source, specialized to one record. -/
def transform_post_row (ts : String) (p : RawPost) : PostRow :=
  let title := py_strip p.title
  let body := py_strip p.body
  { post_id := p.id
  , user_id := p.userId
  , title := title
  , body := body
  , title_length := title.length
  , body_length := body.length
  , word_count := (py_split_ws body.toList).length
  , created_at := ts
  , post_category := post_category_of body.length }

/-- `transform_posts_data`.  As for users, the empty list makes
`df["id"]` raise (`none`); otherwise the derived columns are computed
record-wise. -/
def transform_posts_data (ts : String) (posts_data : List RawPost) :
    Option (List PostRow) :=
  match posts_data with
  | [] => none
  | _ :: _ => some (posts_data.map (transform_post_row ts))

/-! ## Loader (load.py) -/

/-- User row as prepared for the database by `clean_dataframe_for_db`:
string columns truncated per `LENGTH_RULES["users"]`, `created_at`
coerced to a timestamp (`none` = NaT). -/
structure UserDbRow where
  user_id : Int
  username : String
  name : String
  email : String
  phone : String
  website : String
  city : String
  zipcode : String
  lat : NumOrStr
  lng : NumOrStr
  company_name : String
  company_catchphrase : String
  email_domain : String
  has_coordinates : Bool
  created_at : Option String
deriving DecidableEq

/-- Post row as prepared for the database by `clean_dataframe_for_db`:
string columns truncated per `LENGTH_RULES["posts"]`, `created_at`
coerced (`none` = NaT). -/
structure PostDbRow where
  post_id : Int
  user_id : Int
  title : String
  body : String
  title_length : Nat
  body_length : Nat
  word_count : Nat
  created_at : Option String
  post_category : String
deriving DecidableEq

/-- `clean_dataframe_for_db(df, "users")` on one row: `created_at` is
converted with `pd.to_datetime(errors="coerce")`, and every string
column named in `LENGTH_RULES["users"]` is truncated with
`.astype(str).str[:max_len]`.  `company_catchphrase` is a `Text`
column with no length rule and is left unchanged; `lat`, `lng`,
`has_coordinates`, `user_id` are not string columns. -/
def clean_user_row (r : UserRow) : UserDbRow :=
  { user_id := r.user_id
  , username := str_truncate 100 r.username
  , name := str_truncate 200 r.name
  , email := str_truncate 200 r.email
  , phone := str_truncate 50 r.phone
  , website := str_truncate 200 r.website
  , city := str_truncate 100 r.city
  , zipcode := str_truncate 20 r.zipcode
  , lat := r.lat
  , lng := r.lng
  , company_name := str_truncate 200 r.company_name
  , company_catchphrase := r.company_catchphrase
  , email_domain := str_truncate 100 r.email_domain
  , has_coordinates := r.has_coordinates
  , created_at := to_datetime_coerce r.created_at }

/-- `clean_dataframe_for_db(df, "posts")` on one row: `title` and
`post_category` are the only `LENGTH_RULES["posts"]` columns; `body`
is a `Text` column and is left unchanged. -/
def clean_post_row (p : PostRow) : PostDbRow :=
  { post_id := p.post_id
  , user_id := p.user_id
  , title := str_truncate 500 p.title
  , body := p.body
  , title_length := p.title_length
  , body_length := p.body_length
  , word_count := p.word_count
  , created_at := to_datetime_coerce p.created_at
  , post_category := str_truncate 20 p.post_category }

/-- `clean_dataframe_for_db` for the users table (row-wise view of the
column operations). -/
def clean_dataframe_for_db_users (df : List UserRow) : List UserDbRow :=
  df.map clean_user_row

/-- `clean_dataframe_for_db` for the posts table. -/
def clean_dataframe_for_db_posts (df : List PostRow) : List PostDbRow :=
  df.map clean_post_row

/-- The relational store together with the write-failure environment.
`users_write_error = some msg` models the condition under which
`df.to_sql("users", ...)` raises with message `msg` (storage-layer
write failure); `none` means the write succeeds.  Tables always exist
(`create_tables` is idempotent and modelled as a no-op). -/
structure Storage where
  users_table : List UserDbRow
  posts_table : List PostDbRow
  users_write_error : Option String
  posts_write_error : Option String
deriving DecidableEq

/-- `load_to_database(df, "users")`: `to_sql(if_exists="replace")`
fully replaces the table contents with `df`; on a storage failure the
exception is logged and re-raised (`Except.error`). -/
def load_to_database_users (df : List UserDbRow) (st : Storage) :
    Except String Storage :=
  match st.users_write_error with
  | some e => Except.error e
  | none => Except.ok { st with users_table := df }

/-- `load_to_database(df, "posts")`: full-replace semantics, failures
re-raised. -/
def load_to_database_posts (df : List PostDbRow) (st : Storage) :
    Except String Storage :=
  match st.posts_write_error with
  | some e => Except.error e
  | none => Except.ok { st with posts_table := df }

/-- Result of `verify_data_load` / one entry of the `load_all_data`
result dict: table name, committed row count, and the error string
recorded by the per-entity `except` block (absent on success). -/
structure TableStats where
  table : String
  count : Nat
  error : Option String
deriving DecidableEq

/-- `verify_data_load("users")`: reads back the committed row count. -/
def verify_data_load_users (st : Storage) : TableStats :=
  { table := "users", count := st.users_table.length, error := none }

/-- `verify_data_load("posts")`. -/
def verify_data_load_posts (st : Storage) : TableStats :=
  { table := "posts", count := st.posts_table.length, error := none }

/-- The processed snapshot directory for the requested date: each
entity kind's parquet file is either present with its rows or
missing. -/
structure ProcessedFiles where
  users_parquet : Option (List UserRow)
  posts_parquet : Option (List PostRow)
deriving DecidableEq

/-- The pair of entries of the `load_all_data` result dict. -/
structure LoadAllResults where
  users : TableStats
  posts : TableStats
deriving DecidableEq

/-- `load_all_data`: creates the tables, then loads users and posts in
two independent `try` blocks.  Each block reads the processed file
(raising `FileNotFoundError` when absent), cleans it, replaces the
table and verifies the count; ANY exception in a block — missing file
or storage write failure alike — is caught by that block's
`except Exception` and recorded as a zero-count entry carrying the
error string, leaving the store untouched by that block. -/
def load_all_data (pf : ProcessedFiles) (st : Storage) :
    Storage × LoadAllResults :=
  let usersStep : Storage × TableStats :=
    match pf.users_parquet with
    | none => (st, { table := "users", count := 0
                   , error := some "File not found: users.parquet" })
    | some df =>
        match load_to_database_users (clean_dataframe_for_db_users df) st with
        | Except.error e => (st, { table := "users", count := 0, error := some e })
        | Except.ok st1 => (st1, verify_data_load_users st1)
  let st1 := usersStep.1
  let postsStep : Storage × TableStats :=
    match pf.posts_parquet with
    | none => (st1, { table := "posts", count := 0
                    , error := some "File not found: posts.parquet" })
    | some df =>
        match load_to_database_posts (clean_dataframe_for_db_posts df) st1 with
        | Except.error e => (st1, { table := "posts", count := 0, error := some e })
        | Except.ok st2 => (st2, verify_data_load_posts st2)
  (postsStep.1, { users := usersStep.2, posts := postsStep.2 })

/-- The orchestrator's load stage (`DataPipeline.run_load`): calls
`load_all_data` and returns its results; its `except` block only
re-raises, so a normal return of `load_all_data` is returned as is. -/
def run_load (pf : ProcessedFiles) (st : Storage) : Storage × LoadAllResults :=
  load_all_data pf st

/-! ## Analytics (analytics.py) -/

/-- SQL `AVG` over a group: `NULL` (`none`) on the empty group. -/
def sql_avg (xs : List Nat) : Option Rat :=
  match xs with
  | [] => none
  | _ :: _ => some ((xs.sum : Rat) / (xs.length : Rat))

/-- SQL `MAX` over a group: `NULL` on the empty group. -/
def sql_max (xs : List Nat) : Option Nat :=
  match xs with
  | [] => none
  | a :: rest => some (rest.foldl max a)

/-- SQL `MIN` over a group: `NULL` on the empty group. -/
def sql_min (xs : List Nat) : Option Nat :=
  match xs with
  | [] => none
  | a :: rest => some (rest.foldl min a)

/-- The single result row of the `user_statistics` query. -/
structure UserStatsRow where
  total_users : Nat
  unique_domains : Nat
  users_with_coordinates : Nat
  users_with_company : Nat
deriving DecidableEq

/-- The single result row of the `post_statistics` query. -/
structure PostStatsRow where
  total_posts : Nat
  unique_authors : Nat
  avg_title_length : Option Rat
  avg_body_length : Option Rat
  avg_word_count : Option Rat
  max_body_length : Option Nat
  min_body_length : Option Nat
deriving DecidableEq

/-- One result row of the `user_post_activity` query. -/
structure ActivityRow where
  user_id : Int
  username : String
  name : String
  email_domain : String
  post_count : Nat
  avg_post_length : Option Rat
  max_post_length : Option Nat
deriving DecidableEq

/-- The `user_statistics` aggregate query over the `users` table. -/
def user_statistics (st : Storage) : UserStatsRow :=
  { total_users := st.users_table.length
  , unique_domains := (st.users_table.map fun r => r.email_domain).dedup.length
  , users_with_coordinates := st.users_table.countP fun r => r.has_coordinates
  , users_with_company := st.users_table.countP fun r => r.company_name ≠ "" }

/-- The `post_statistics` aggregate query over the `posts` table. -/
def post_statistics (st : Storage) : PostStatsRow :=
  { total_posts := st.posts_table.length
  , unique_authors := (st.posts_table.map fun p => p.user_id).dedup.length
  , avg_title_length := sql_avg (st.posts_table.map fun p => p.title_length)
  , avg_body_length := sql_avg (st.posts_table.map fun p => p.body_length)
  , avg_word_count := sql_avg (st.posts_table.map fun p => p.word_count)
  , max_body_length := sql_max (st.posts_table.map fun p => p.body_length)
  , min_body_length := sql_min (st.posts_table.map fun p => p.body_length) }

/-- The `user_post_activity` query: one row per user (LEFT JOIN, so a
user with no posts keeps one row with `post_count = 0` and NULL
aggregates), ordered by `post_count` descending. -/
def user_post_activity (st : Storage) : List ActivityRow :=
  let rows := st.users_table.map fun u =>
    let ps := st.posts_table.filter fun p => p.user_id = u.user_id
    { user_id := u.user_id
    , username := u.username
    , name := u.name
    , email_domain := u.email_domain
    , post_count := ps.length
    , avg_post_length := sql_avg (ps.map fun p => p.word_count)
    , max_post_length := sql_max (ps.map fun p => p.body_length) : ActivityRow }
  rows.mergeSort fun a b => b.post_count ≤ a.post_count

/-- Outcome of one analytics query as recorded in the report: either
the result rows, or the error entry written by the per-query `except`
block. -/
inductive QueryOutcome (ρ : Type) where
  | ok : List ρ → QueryOutcome ρ
  | err : String → QueryOutcome ρ
deriving DecidableEq

/-- The `data` field of a report entry (`[]` for an error entry). -/
def QueryOutcome.data {ρ : Type} : QueryOutcome ρ → List ρ
  | QueryOutcome.ok rows => rows
  | QueryOutcome.err _ => []

/-- The `record_count` field of a report entry (`0` for an error
entry). -/
def QueryOutcome.record_count {ρ : Type} : QueryOutcome ρ → Nat
  | QueryOutcome.ok rows => rows.length
  | QueryOutcome.err _ => 0

/-- Per-query failure environment for `generate_report`:
`some msg` models the condition under which that query raises with
message `msg` (malformed SQL or storage-layer error). -/
structure AnalyticsEnv where
  user_statistics_error : Option String
  post_statistics_error : Option String
  user_post_activity_error : Option String
deriving DecidableEq

/-- The `analytics` section of the report produced by
`generate_report`. -/
structure Report where
  user_statistics : QueryOutcome UserStatsRow
  post_statistics : QueryOutcome PostStatsRow
  user_post_activity : QueryOutcome ActivityRow

/-- `generate_report`: runs the three fixed queries in order, each in
its own `try` block; a failing query contributes an error entry
(error string, empty data, record count 0) and the loop continues with
the remaining queries. -/
def generate_report (env : AnalyticsEnv) (st : Storage) : Report :=
  { user_statistics :=
      match env.user_statistics_error with
      | some e => QueryOutcome.err e
      | none => QueryOutcome.ok [user_statistics st]
  , post_statistics :=
      match env.post_statistics_error with
      | some e => QueryOutcome.err e
      | none => QueryOutcome.ok [post_statistics st]
  , user_post_activity :=
      match env.user_post_activity_error with
      | some e => QueryOutcome.err e
      | none => QueryOutcome.ok (user_post_activity st) }

/-! ## Helper lemmas -/

/-- Lower-casing never produces an `@` from another character. -/
theorem py_lower_char_ne_at (c : Char) (hc : c ≠ '@') : py_lower_char c ≠ '@' := by
  by_cases h1 : c = 'A'
  · subst h1; decide
  by_cases h2 : c = 'B'
  · subst h2; decide
  by_cases h3 : c = 'C'
  · subst h3; decide
  by_cases h4 : c = 'D'
  · subst h4; decide
  by_cases h5 : c = 'E'
  · subst h5; decide
  by_cases h6 : c = 'F'
  · subst h6; decide
  by_cases h7 : c = 'G'
  · subst h7; decide
  by_cases h8 : c = 'H'
  · subst h8; decide
  by_cases h9 : c = 'I'
  · subst h9; decide
  by_cases h10 : c = 'J'
  · subst h10; decide
  by_cases h11 : c = 'K'
  · subst h11; decide
  by_cases h12 : c = 'L'
  · subst h12; decide
  by_cases h13 : c = 'M'
  · subst h13; decide
  by_cases h14 : c = 'N'
  · subst h14; decide
  by_cases h15 : c = 'O'
  · subst h15; decide
  by_cases h16 : c = 'P'
  · subst h16; decide
  by_cases h17 : c = 'Q'
  · subst h17; decide
  by_cases h18 : c = 'R'
  · subst h18; decide
  by_cases h19 : c = 'S'
  · subst h19; decide
  by_cases h20 : c = 'T'
  · subst h20; decide
  by_cases h21 : c = 'U'
  · subst h21; decide
  by_cases h22 : c = 'V'
  · subst h22; decide
  by_cases h23 : c = 'W'
  · subst h23; decide
  by_cases h24 : c = 'X'
  · subst h24; decide
  by_cases h25 : c = 'Y'
  · subst h25; decide
  by_cases h26 : c = 'Z'
  · subst h26; decide
  unfold py_lower_char
  rw [if_neg h1, if_neg h2, if_neg h3, if_neg h4, if_neg h5, if_neg h6,
      if_neg h7, if_neg h8, if_neg h9, if_neg h10, if_neg h11, if_neg h12,
      if_neg h13, if_neg h14, if_neg h15, if_neg h16, if_neg h17, if_neg h18,
      if_neg h19, if_neg h20, if_neg h21, if_neg h22, if_neg h23, if_neg h24,
      if_neg h25, if_neg h26]
  exact hc

/-- Lower-casing a character list preserves the number of `@`
occurrences. -/
theorem count_char_map_lower (cs : List Char) :
    count_char '@' (cs.map py_lower_char) = count_char '@' cs := by
  induction cs with
  | nil => rfl
  | cons a rest ih =>
      simp only [List.map_cons, count_char, ih]
      by_cases ha : a = '@'
      · subst ha
        rw [if_pos (by decide : py_lower_char '@' = '@'), if_pos rfl]
      · rw [if_neg (py_lower_char_ne_at a ha), if_neg ha]

/-- A list without the separator splits to the single whole list. -/
theorem split_on_char_of_count_zero (c : Char) (cs : List Char)
    (h : count_char c cs = 0) : split_on_char c cs = [cs] := by
  induction cs with
  | nil => rfl
  | cons a rest ih =>
      simp only [count_char] at h
      by_cases ha : a = c
      · simp [ha] at h
      · simp only [split_on_char, if_neg ha]
        rw [ih (by omega)]

/-- A list with exactly one separator occurrence splits to the parts
before and after that occurrence. -/
theorem split_on_char_of_count_one (c : Char) (cs : List Char)
    (h : count_char c cs = 1) :
    split_on_char c cs = [before_char c cs, after_char c cs] := by
  induction cs with
  | nil => simp [count_char] at h
  | cons a rest ih =>
      simp only [count_char] at h
      by_cases ha : a = c
      · simp only [split_on_char, before_char, after_char, if_pos ha]
        rw [split_on_char_of_count_zero c rest (by simp [ha] at h; omega)]
      · simp only [split_on_char, before_char, after_char, if_neg ha]
        rw [ih (by simp [ha] at h; omega)]

/-- Truncation never exceeds the limit. -/
theorem str_truncate_length_le (n : Nat) (s : String) :
    (str_truncate n s).length ≤ n := by
  show (s.toList.take n).length ≤ n
  rw [List.length_take]
  omega

/-- Truncation leaves a string within the limit unchanged. -/
theorem str_truncate_of_le (n : Nat) (s : String) (h : s.length ≤ n) :
    str_truncate n s = s := by
  show String.mk (List.take n s.data) = s
  rw [List.take_of_length_le (show s.data.length ≤ n from h)]

/-- Truncation written as the claim states it: unchanged when already
within the limit, cut otherwise. -/
theorem str_truncate_ite (n : Nat) (s : String) :
    str_truncate n s = if s.length ≤ n then s else str_truncate n s := by
  by_cases h : s.length ≤ n
  · rw [if_pos h, str_truncate_of_le n s h]
  · rw [if_neg h]

/-- Full characterization of the `pd.cut`-based post category. -/
theorem post_category_of_spec (n : Nat) :
    (post_category_of n = "short" ↔ (1 ≤ n ∧ n ≤ 100))
  ∧ (post_category_of n = "medium" ↔ (101 ≤ n ∧ n ≤ 200))
  ∧ (post_category_of n = "long" ↔ 200 < n)
  ∧ (post_category_of n = "nan" ↔ n = 0) := by
  unfold post_category_of
  by_cases h1 : 0 < n ∧ n ≤ 100
  · rw [if_pos h1]
    exact ⟨iff_of_true rfl (by omega),
           iff_of_false (by decide) (by omega),
           iff_of_false (by decide) (by omega),
           iff_of_false (by decide) (by omega)⟩
  by_cases h2 : 100 < n ∧ n ≤ 200
  · rw [if_neg h1, if_pos h2]
    exact ⟨iff_of_false (by decide) (by omega),
           iff_of_true rfl (by omega),
           iff_of_false (by decide) (by omega),
           iff_of_false (by decide) (by omega)⟩
  by_cases h3 : 200 < n
  · rw [if_neg h1, if_neg h2, if_pos h3]
    exact ⟨iff_of_false (by decide) (by omega),
           iff_of_false (by decide) (by omega),
           iff_of_true rfl (by omega),
           iff_of_false (by decide) (by omega)⟩
  · rw [if_neg h1, if_neg h2, if_neg h3]
    exact ⟨iff_of_false (by decide) (by omega),
           iff_of_false (by decide) (by omega),
           iff_of_false (by decide) (by omega),
           iff_of_true rfl (by omega)⟩

/-! ## Sample values used by witnesses and counterexamples -/

/-- A raw post whose body is whitespace only: its trimmed body is empty. -/
def post_blank : RawPost :=
  { id := 1, userId := 1, title := "t", body := " " }

/-- A raw post with a short body. -/
def post_hi : RawPost :=
  { id := 2, userId := 1, title := "greeting", body := "hi" }

/-- A raw user with no address and no company block. -/
def user_no_blocks : RawUser :=
  { id := 1, username := "u", name := "n", email := "e@x"
  , phone := "p", website := "w", address := none, company := none }

/-- The scenario user of the specification. -/
def user_bob : RawUser :=
  { id := 1, username := "bob", name := "Bob", email := "BOB@X.com"
  , phone := "", website := ""
  , address := some { city := "A", zipcode := "1"
                    , geo := some { lat := some "1.0", lng := some "2.0" } }
  , company := some { name := "Acme", catchPhrase := some "go" } }

/-! ## C1: post_category thresholds -/

/-- C1 counterexample: the claim says every post gets one of
short/medium/long with an empty trimmed body (body_length 0)
categorized short; but `pd.cut` with bins `[0, 100, 200, inf]` leaves
`0` outside every bin, and `astype(str)` renders the resulting NaN as
the string `"nan"`. -/
theorem posts_category_zero_counterexample :
    transform_posts_data "t" [post_blank]
      = some [transform_post_row "t" post_blank]
  ∧ (transform_post_row "t" post_blank).body_length = 0
  ∧ (transform_post_row "t" post_blank).post_category = "nan"
  ∧ ((transform_post_row "t" post_blank).post_category = "short") = False := by
  refine ⟨rfl, rfl, rfl, eq_false (by decide)⟩

/-- C1 (amended): for every row produced by `transform_posts_data`,
`body_length` is the length of the trimmed body and `post_category` is
short for body_length 1..100, medium for 101..200, long above 200, and
the string "nan" (pd.cut's stringified NaN) exactly when the trimmed
body is empty. -/
theorem posts_category_thresholds (ts : String) (posts : List RawPost)
    (rows : List PostRow) (r : PostRow)
    (hrows : transform_posts_data ts posts = some rows) (hr : r ∈ rows) :
    r.body_length = r.body.length
  ∧ (r.post_category = "short" ↔ (1 ≤ r.body_length ∧ r.body_length ≤ 100))
  ∧ (r.post_category = "medium" ↔ (101 ≤ r.body_length ∧ r.body_length ≤ 200))
  ∧ (r.post_category = "long" ↔ 200 < r.body_length)
  ∧ (r.post_category = "nan" ↔ r.body_length = 0) := by
  cases posts with
  | nil => simp [transform_posts_data] at hrows
  | cons p0 ps =>
      simp only [transform_posts_data, Option.some.injEq] at hrows
      subst hrows
      rcases List.mem_map.1 hr with ⟨p, _, rfl⟩
      exact ⟨rfl,
             (post_category_of_spec (py_strip p.body).length).1,
             (post_category_of_spec (py_strip p.body).length).2.1,
             (post_category_of_spec (py_strip p.body).length).2.2.1,
             (post_category_of_spec (py_strip p.body).length).2.2.2⟩

/-- C1 witness: a concrete post with trimmed body length 2 is
categorized short, via the amended theorem. -/
theorem posts_category_thresholds_witness :
    transform_posts_data "t" [post_hi] = some [transform_post_row "t" post_hi]
  ∧ ((transform_post_row "t" post_hi).post_category = "short"
      ↔ (1 ≤ (transform_post_row "t" post_hi).body_length
         ∧ (transform_post_row "t" post_hi).body_length ≤ 100)) :=
  ⟨rfl, (posts_category_thresholds "t" [post_hi]
          [transform_post_row "t" post_hi] (transform_post_row "t" post_hi)
          rfl (List.mem_singleton.2 rfl)).2.1⟩

/-! ## C10: one output row per input record -/

/-- C10 counterexample: on the empty record list `pd.DataFrame([])`
has no columns, so the first column access raises and no row set at
all is produced; the claim's "for every input list" fails at `[]`. -/
theorem transform_empty_input_counterexample :
    transform_users_data "t" ([] : List RawUser) = none
  ∧ transform_posts_data "t" ([] : List RawPost) = none :=
  ⟨rfl, rfl⟩

/-- C10 (amended): for every NONEMPTY input list, each transformer
produces exactly one output row per input record in input order (the
output is the record-wise map over the input), so the row count equals
the record count. -/
theorem transform_row_counts (ts : String) (users : List RawUser)
    (posts : List RawPost) (hu : users ≠ []) (hp : posts ≠ []) :
    transform_users_data ts users
      = some (users.map fun u => user_fillna (transform_user_pre ts u))
  ∧ transform_posts_data ts posts = some (posts.map (transform_post_row ts))
  ∧ (users.map fun u => user_fillna (transform_user_pre ts u)).length
      = users.length
  ∧ (posts.map (transform_post_row ts)).length = posts.length := by
  refine ⟨?_, ?_, by simp, by simp⟩
  · cases users with
    | nil => exact absurd rfl hu
    | cons a l => rfl
  · cases posts with
    | nil => exact absurd rfl hp
    | cons a l => rfl

/-- C10 witness: the amended theorem at concrete one-element inputs. -/
theorem transform_row_counts_witness :
    ([user_no_blocks] : List RawUser) ≠ []
  ∧ ([post_hi] : List RawPost) ≠ []
  ∧ transform_users_data "t" [user_no_blocks]
      = some ([user_no_blocks].map fun u => user_fillna (transform_user_pre "t" u))
  ∧ transform_posts_data "t" [post_hi]
      = some ([post_hi].map (transform_post_row "t")) :=
  ⟨by simp, by simp,
   (transform_row_counts "t" [user_no_blocks] [post_hi] (by simp) (by simp)).1,
   (transform_row_counts "t" [user_no_blocks] [post_hi] (by simp) (by simp)).2.1⟩

/-! ## C4: email lower-casing and domain derivation -/

/-- C4: for a raw user whose email contains exactly one `@`, the
normalized row's email is the lower-cased raw email, and its
email_domain is the substring of that lower-cased email after the
first `@` (the code computes it as `.str.split("@").str[1]`; with one
`@` that is exactly the after-the-first-`@` substring). -/
theorem users_email_domain (ts : String) (u : RawUser)
    (h : count_char '@' u.email.toList = 1) :
    (user_fillna (transform_user_pre ts u)).email = py_lower u.email
  ∧ (user_fillna (transform_user_pre ts u)).email_domain
      = String.mk (after_char '@' (py_lower u.email).toList) := by
  constructor
  · rfl
  · show fillna_string
        (((split_on_char '@' (py_lower u.email).toList).get? 1).map
          fun cs => String.mk cs)
      = String.mk (after_char '@' (py_lower u.email).toList)
    have hcount : count_char '@' (py_lower u.email).toList = 1 := by
      show count_char '@' (u.email.toList.map py_lower_char) = 1
      rw [count_char_map_lower]
      exact h
    rw [split_on_char_of_count_one '@' _ hcount]
    rfl

/-- C4 witness: the specification's scenario user, whose email
`BOB@X.com` lowers to `bob@x.com` with domain `x.com`. -/
theorem users_email_domain_witness :
    count_char '@' user_bob.email.toList = 1
  ∧ (user_fillna (transform_user_pre "t" user_bob)).email = py_lower user_bob.email
  ∧ (user_fillna (transform_user_pre "t" user_bob)).email_domain
      = String.mk (after_char '@' (py_lower user_bob.email).toList)
  ∧ py_lower user_bob.email = "bob@x.com"
  ∧ String.mk (after_char '@' (py_lower user_bob.email).toList) = "x.com" :=
  ⟨by decide,
   (users_email_domain "t" user_bob (by decide)).1,
   (users_email_domain "t" user_bob (by decide)).2,
   by decide, by decide⟩

/-! ## C5: has_coordinates iff both coordinates present -/

/-- C5: the `has_coordinates` column is computed as
`~(lat.isna() | lng.isna())` before the frame-wide `fillna`, so it is
true exactly when both derived coordinates are non-null; in the final
row (where the `fillna` has replaced NaN by the empty string) it is
true exactly when both `lat` and `lng` hold numeric values. -/
theorem users_has_coordinates (ts : String) (u : RawUser) :
    (transform_user_pre ts u).has_coordinates
      = ((transform_user_pre ts u).lat.isSome
         && (transform_user_pre ts u).lng.isSome)
  ∧ (user_fillna (transform_user_pre ts u)).has_coordinates
      = (((user_fillna (transform_user_pre ts u)).lat).isNum
         && ((user_fillna (transform_user_pre ts u)).lng).isNum) := by
  have key : ∀ a b : Option Rat,
      (!(a.isNone || b.isNone)) = (a.isSome && b.isSome) := by
    intro a b
    cases a <;> cases b <;> rfl
  have key2 : ∀ a b : Option Rat,
      (!(a.isNone || b.isNone))
        = ((fillna_numeric a).isNum && (fillna_numeric b).isNum) := by
    intro a b
    cases a <;> cases b <;> rfl
  exact ⟨key _ _, key2 _ _⟩

/-! ## C2: missing nested blocks -/

/-- C2 counterexample: for a user with no address block the claim says
the final `lat`/`lng` are null and in particular NOT the empty string;
but the frame-wide `fillna("")` on line 98 of transform.py also fills
the NaN coordinates, so the final cells hold the empty string. -/
theorem users_latlng_empty_counterexample :
    (transform_users_data "t" [user_no_blocks]).map
        (fun rows => rows.map UserRow.lat) = some [NumOrStr.str ""]
  ∧ (transform_users_data "t" [user_no_blocks]).map
        (fun rows => rows.map UserRow.lng) = some [NumOrStr.str ""]
  ∧ ((user_fillna (transform_user_pre "t" user_no_blocks)).lat
      = NumOrStr.str "") = True := by
  refine ⟨rfl, rfl, eq_true rfl⟩

/-- C2 (amended): fields derived from a missing or incomplete address
or company block are the empty string, and this includes `lat` and
`lng`: the NaN coordinates are also turned into the empty string by
the final frame-wide `fillna("")` (they are NOT null in the output);
transforming such a record does not raise. -/
theorem users_missing_blocks (ts : String) (u : RawUser) (us : List RawUser)
    (ha : u.address = none) (hc : u.company = none) :
    (user_fillna (transform_user_pre ts u)).city = ""
  ∧ (user_fillna (transform_user_pre ts u)).zipcode = ""
  ∧ (user_fillna (transform_user_pre ts u)).lat = NumOrStr.str ""
  ∧ (user_fillna (transform_user_pre ts u)).lng = NumOrStr.str ""
  ∧ (user_fillna (transform_user_pre ts u)).company_name = ""
  ∧ (user_fillna (transform_user_pre ts u)).company_catchphrase = ""
  ∧ (transform_users_data ts (u :: us)).isSome = true
  ∧ (∀ v : RawUser, ∀ ad : RawAddress, v.address = some ad → ad.geo = none →
       (user_fillna (transform_user_pre ts v)).lat = NumOrStr.str ""
     ∧ (user_fillna (transform_user_pre ts v)).lng = NumOrStr.str "")
  ∧ (∀ v : RawUser, ∀ ad : RawAddress, ∀ g : RawGeo, ∀ s : String,
       v.address = some ad → ad.geo = some g → g.lat = some s →
       parse_decimal (py_strip s) = none →
       (user_fillna (transform_user_pre ts v)).lat = NumOrStr.str "") := by
  refine ⟨?_, ?_, ?_, ?_, ?_, ?_, rfl, ?_, ?_⟩
  · show (match u.address with
          | some a => a.city.getD ""
          | none => "") = ""
    rw [ha]
  · show (match u.address with
          | some a => a.zipcode.getD ""
          | none => "") = ""
    rw [ha]
  · show fillna_numeric
        (to_numeric_coerce ((u.address.bind fun a => a.geo).bind fun g => g.lat))
      = NumOrStr.str ""
    rw [ha]
    rfl
  · show fillna_numeric
        (to_numeric_coerce ((u.address.bind fun a => a.geo).bind fun g => g.lng))
      = NumOrStr.str ""
    rw [ha]
    rfl
  · show (match u.company with
          | some co => co.name.getD ""
          | none => "") = ""
    rw [hc]
  · show (match u.company with
          | some co => co.catchPhrase.getD ""
          | none => "") = ""
    rw [hc]
  · intro v ad hv hg
    constructor
    · show fillna_numeric
          (to_numeric_coerce ((v.address.bind fun a => a.geo).bind fun g => g.lat))
        = NumOrStr.str ""
      rw [hv]
      show fillna_numeric
          (to_numeric_coerce ((ad.geo).bind fun g => g.lat)) = NumOrStr.str ""
      rw [hg]
      rfl
    · show fillna_numeric
          (to_numeric_coerce ((v.address.bind fun a => a.geo).bind fun g => g.lng))
        = NumOrStr.str ""
      rw [hv]
      show fillna_numeric
          (to_numeric_coerce ((ad.geo).bind fun g => g.lng)) = NumOrStr.str ""
      rw [hg]
      rfl
  · intro v ad g s hv hg hl hparse
    show fillna_numeric
        (to_numeric_coerce ((v.address.bind fun a => a.geo).bind fun g => g.lat))
      = NumOrStr.str ""
    rw [hv]
    show fillna_numeric
        (to_numeric_coerce ((ad.geo).bind fun gg => gg.lat)) = NumOrStr.str ""
    rw [hg]
    show fillna_numeric (to_numeric_coerce g.lat) = NumOrStr.str ""
    rw [hl]
    show fillna_numeric (parse_decimal (py_strip s)) = NumOrStr.str ""
    rw [hparse]
    rfl

/-- C2 witness: the amended theorem at the concrete user with no
address and no company block. -/
theorem users_missing_blocks_witness :
    user_no_blocks.address = none
  ∧ user_no_blocks.company = none
  ∧ (user_fillna (transform_user_pre "t" user_no_blocks)).city = ""
  ∧ (user_fillna (transform_user_pre "t" user_no_blocks)).lat = NumOrStr.str ""
  ∧ (transform_users_data "t" [user_no_blocks]).isSome = true :=
  ⟨rfl, rfl,
   (users_missing_blocks "t" user_no_blocks [] rfl rfl).1,
   (users_missing_blocks "t" user_no_blocks [] rfl rfl).2.2.1,
   (users_missing_blocks "t" user_no_blocks [] rfl rfl).2.2.2.2.2.2.1⟩

/-! ## C9: cleaning for storage -/

/-- C9: `clean_dataframe_for_db` preserves the row count; every string
field within its declared maximum length is left unchanged and longer
fields are cut to the limit (limits per `LENGTH_RULES`: username 100,
name 200, email 200, phone 50, website 200, city 100, zipcode 20,
company_name 200, email_domain 100, title 500, post_category 20); and
`created_at` is coerced with `errors="coerce"`, so an unparsable value
becomes null rather than raising. -/
theorem clean_for_storage_spec (udf : List UserRow) (pdf : List PostRow)
    (r : UserRow) (p : PostRow) :
    (clean_dataframe_for_db_users udf).length = udf.length
  ∧ (clean_dataframe_for_db_posts pdf).length = pdf.length
  ∧ (clean_user_row r).username
      = (if r.username.length ≤ 100 then r.username
         else str_truncate 100 r.username)
  ∧ (clean_user_row r).username.length ≤ 100
  ∧ (clean_user_row r).name
      = (if r.name.length ≤ 200 then r.name else str_truncate 200 r.name)
  ∧ (clean_user_row r).name.length ≤ 200
  ∧ (clean_user_row r).email
      = (if r.email.length ≤ 200 then r.email else str_truncate 200 r.email)
  ∧ (clean_user_row r).email.length ≤ 200
  ∧ (clean_user_row r).phone
      = (if r.phone.length ≤ 50 then r.phone else str_truncate 50 r.phone)
  ∧ (clean_user_row r).phone.length ≤ 50
  ∧ (clean_user_row r).website
      = (if r.website.length ≤ 200 then r.website
         else str_truncate 200 r.website)
  ∧ (clean_user_row r).website.length ≤ 200
  ∧ (clean_user_row r).city
      = (if r.city.length ≤ 100 then r.city else str_truncate 100 r.city)
  ∧ (clean_user_row r).city.length ≤ 100
  ∧ (clean_user_row r).zipcode
      = (if r.zipcode.length ≤ 20 then r.zipcode
         else str_truncate 20 r.zipcode)
  ∧ (clean_user_row r).zipcode.length ≤ 20
  ∧ (clean_user_row r).company_name
      = (if r.company_name.length ≤ 200 then r.company_name
         else str_truncate 200 r.company_name)
  ∧ (clean_user_row r).company_name.length ≤ 200
  ∧ (clean_user_row r).email_domain
      = (if r.email_domain.length ≤ 100 then r.email_domain
         else str_truncate 100 r.email_domain)
  ∧ (clean_user_row r).email_domain.length ≤ 100
  ∧ (clean_user_row r).company_catchphrase = r.company_catchphrase
  ∧ (clean_post_row p).title
      = (if p.title.length ≤ 500 then p.title else str_truncate 500 p.title)
  ∧ (clean_post_row p).title.length ≤ 500
  ∧ (clean_post_row p).post_category
      = (if p.post_category.length ≤ 20 then p.post_category
         else str_truncate 20 p.post_category)
  ∧ (clean_post_row p).post_category.length ≤ 20
  ∧ (clean_post_row p).body = p.body
  ∧ (clean_user_row r).created_at = to_datetime_coerce r.created_at
  ∧ (clean_post_row p).created_at = to_datetime_coerce p.created_at
  ∧ to_datetime_coerce r.created_at
      = (if is_iso_date_prefix r.created_at then some r.created_at else none) := by
  refine ⟨List.length_map _ _, List.length_map _ _,
          str_truncate_ite 100 r.username, str_truncate_length_le 100 r.username,
          str_truncate_ite 200 r.name, str_truncate_length_le 200 r.name,
          str_truncate_ite 200 r.email, str_truncate_length_le 200 r.email,
          str_truncate_ite 50 r.phone, str_truncate_length_le 50 r.phone,
          str_truncate_ite 200 r.website, str_truncate_length_le 200 r.website,
          str_truncate_ite 100 r.city, str_truncate_length_le 100 r.city,
          str_truncate_ite 20 r.zipcode, str_truncate_length_le 20 r.zipcode,
          str_truncate_ite 200 r.company_name,
          str_truncate_length_le 200 r.company_name,
          str_truncate_ite 100 r.email_domain,
          str_truncate_length_le 100 r.email_domain,
          rfl,
          str_truncate_ite 500 p.title, str_truncate_length_le 500 p.title,
          str_truncate_ite 20 p.post_category,
          str_truncate_length_le 20 p.post_category,
          rfl, rfl, rfl, rfl⟩

/-! ## C8: full-replace load is idempotent -/

/-- C8: `to_sql(if_exists="replace")` discards prior table contents
and installs the given rows, so loading the same row set twice in
succession leaves the table exactly as one load does (same contents,
hence the same row count, and never an append). -/
theorem load_full_replace_idempotent (udf : List UserDbRow)
    (pdf : List PostDbRow) (st st1 st2 : Storage)
    (hu : load_to_database_users udf st = Except.ok st1)
    (hp : load_to_database_posts pdf st = Except.ok st2) :
    st1.users_table = udf
  ∧ st1.users_table.length = udf.length
  ∧ load_to_database_users udf st1 = Except.ok st1
  ∧ st2.posts_table = pdf
  ∧ st2.posts_table.length = pdf.length
  ∧ load_to_database_posts pdf st2 = Except.ok st2 := by
  obtain ⟨ut, pt, uwe, pwe⟩ := st
  cases uwe with
  | some e => exact absurd hu (by simp [load_to_database_users])
  | none =>
    cases pwe with
    | some e => exact absurd hp (by simp [load_to_database_posts])
    | none =>
      have h1 : ({ users_table := udf, posts_table := pt
                 , users_write_error := none
                 , posts_write_error := none : Storage }) = st1 :=
        Except.ok.inj hu
      have h2 : ({ users_table := ut, posts_table := pdf
                 , users_write_error := none
                 , posts_write_error := none : Storage }) = st2 :=
        Except.ok.inj hp
      subst h1
      subst h2
      exact ⟨rfl, rfl, rfl, rfl, rfl, rfl⟩

/-- A concrete cleaned user row. -/
def sample_user_db_row : UserDbRow :=
  { user_id := 1, username := "u", name := "n", email := "e@x"
  , phone := "p", website := "w", city := "c", zipcode := "z"
  , lat := NumOrStr.str "", lng := NumOrStr.str ""
  , company_name := "", company_catchphrase := "", email_domain := "x"
  , has_coordinates := false, created_at := some "2024-01-01T00:00:00" }

/-- A concrete cleaned post row. -/
def sample_post_db_row : PostDbRow :=
  { post_id := 1, user_id := 1, title := "t", body := "b"
  , title_length := 1, body_length := 1, word_count := 1
  , created_at := some "2024-01-01T00:00:00", post_category := "short" }

/-- A store with empty tables and no write failures. -/
def st_ok : Storage :=
  { users_table := [], posts_table := []
  , users_write_error := none, posts_write_error := none }

/-- `st_ok` after one users load. -/
def st_ok_users : Storage :=
  { users_table := [sample_user_db_row], posts_table := []
  , users_write_error := none, posts_write_error := none }

/-- `st_ok` after one posts load. -/
def st_ok_posts : Storage :=
  { users_table := [], posts_table := [sample_post_db_row]
  , users_write_error := none, posts_write_error := none }

/-- C8 witness: loading one concrete row set twice leaves the table as
one load does, via the idempotence theorem. -/
theorem load_full_replace_idempotent_witness :
    load_to_database_users [sample_user_db_row] st_ok = Except.ok st_ok_users
  ∧ load_to_database_posts [sample_post_db_row] st_ok = Except.ok st_ok_posts
  ∧ st_ok_users.users_table = [sample_user_db_row]
  ∧ st_ok_users.users_table.length = [sample_user_db_row].length
  ∧ load_to_database_users [sample_user_db_row] st_ok_users
      = Except.ok st_ok_users :=
  ⟨rfl, rfl,
   (load_full_replace_idempotent [sample_user_db_row] [sample_post_db_row]
     st_ok st_ok_users st_ok_posts rfl rfl).1,
   (load_full_replace_idempotent [sample_user_db_row] [sample_post_db_row]
     st_ok st_ok_users st_ok_posts rfl rfl).2.1,
   (load_full_replace_idempotent [sample_user_db_row] [sample_post_db_row]
     st_ok st_ok_users st_ok_posts rfl rfl).2.2.1⟩

/-! ## C3: storage write failure in the load stage -/

/-- A concrete normalized user row (output of the transformer on
`user_no_blocks`). -/
def sample_user_row : UserRow :=
  user_fillna (transform_user_pre "2024-01-01T00:00:00" user_no_blocks)

/-- A processed snapshot with only the users file present. -/
def pf_users_only : ProcessedFiles :=
  { users_parquet := some [sample_user_row], posts_parquet := none }

/-- A store whose users-table write fails. -/
def st_users_fail : Storage :=
  { users_table := [], posts_table := []
  , users_write_error := some "disk full", posts_write_error := none }

/-- C3 counterexample: the claim says a storage write failure in
`load_to_database` propagates out of `load_all_data`; in fact the
per-entity `except Exception` block of `load_all_data` catches it and
`load_all_data` returns normally with a zero-count error entry for
that kind — exactly the downgrade the claim denies. -/
theorem load_storage_error_caught_counterexample :
    load_to_database_users (clean_dataframe_for_db_users [sample_user_row])
        st_users_fail = Except.error "disk full"
  ∧ (load_all_data pf_users_only st_users_fail).2.users
      = { table := "users", count := 0, error := some "disk full" }
  ∧ (load_all_data pf_users_only st_users_fail).1 = st_users_fail := by
  refine ⟨rfl, rfl, rfl⟩

/-- C3 (amended): `load_to_database` itself re-raises a storage write
failure, but `load_all_data` does NOT let it propagate: its per-entity
`except Exception` block catches any exception — storage failures
included — and downgrades it to a zero-count result with the error
recorded, leaving the store unchanged for that entity; the orchestrator
(`run_load`) therefore receives a normal result. -/
theorem load_write_failure_downgraded (pf : ProcessedFiles) (st : Storage)
    (udf : List UserRow) (m : String)
    (hu : pf.users_parquet = some udf)
    (hf : st.users_write_error = some m) :
    load_to_database_users (clean_dataframe_for_db_users udf) st
      = Except.error m
  ∧ (run_load pf st).2.users = { table := "users", count := 0, error := some m }
  ∧ (run_load pf st).1.users_table = st.users_table := by
  obtain ⟨put, ppt⟩ := pf
  obtain ⟨ut, pt, uwe, pwe⟩ := st
  simp only at hu hf
  subst hu
  subst hf
  refine ⟨rfl, ?_, ?_⟩
  · cases ppt with
    | none => rfl
    | some pdfx =>
        cases pwe with
        | none => rfl
        | some e2 => rfl
  · cases ppt with
    | none => rfl
    | some pdfx =>
        cases pwe with
        | none => rfl
        | some e2 => rfl

/-- C3 witness: the amended theorem at a concrete snapshot and
failing store. -/
theorem load_write_failure_downgraded_witness :
    pf_users_only.users_parquet = some [sample_user_row]
  ∧ st_users_fail.users_write_error = some "disk full"
  ∧ (run_load pf_users_only st_users_fail).2.users
      = { table := "users", count := 0, error := some "disk full" }
  ∧ (run_load pf_users_only st_users_fail).1.users_table
      = st_users_fail.users_table :=
  ⟨rfl, rfl,
   (load_write_failure_downgraded pf_users_only st_users_fail
     [sample_user_row] "disk full" rfl rfl).2.1,
   (load_write_failure_downgraded pf_users_only st_users_fail
     [sample_user_row] "disk full" rfl rfl).2.2⟩

/-! ## C6: missing processed file tolerance in load_all_data -/

/-- C6: the users and posts loads in `load_all_data` are independent:
a missing processed file for one kind yields a zero-count entry with
the error recorded (no raise), while the other kind is loaded
normally (table replaced with the cleaned rows, count verified). -/
theorem load_all_missing_file_tolerance (pf : ProcessedFiles) (st : Storage)
    (pdf : List PostRow)
    (hu : pf.users_parquet = none)
    (hp : pf.posts_parquet = some pdf)
    (hw : st.posts_write_error = none) :
    (load_all_data pf st).2.users.count = 0
  ∧ ((load_all_data pf st).2.users.error).isSome = true
  ∧ (load_all_data pf st).2.posts
      = { table := "posts", count := (clean_dataframe_for_db_posts pdf).length
        , error := none }
  ∧ (load_all_data pf st).1.posts_table = clean_dataframe_for_db_posts pdf
  ∧ (load_all_data pf st).1.users_table = st.users_table
  ∧ (∀ pf2 : ProcessedFiles, ∀ udf : List UserRow,
       pf2.users_parquet = some udf → pf2.posts_parquet = none →
       st.users_write_error = none →
       (load_all_data pf2 st).2.posts.count = 0
     ∧ ((load_all_data pf2 st).2.posts.error).isSome = true
     ∧ (load_all_data pf2 st).2.users
         = { table := "users"
           , count := (clean_dataframe_for_db_users udf).length
           , error := none }
     ∧ (load_all_data pf2 st).1.users_table
         = clean_dataframe_for_db_users udf) := by
  obtain ⟨put, ppt⟩ := pf
  obtain ⟨ut, pt, uwe, pwe⟩ := st
  simp only at hu hp hw
  subst hu
  subst hp
  subst hw
  refine ⟨rfl, rfl, rfl, rfl, rfl, ?_⟩
  intro pf2 udf hu2 hp2 hw2
  obtain ⟨put2, ppt2⟩ := pf2
  simp only at hu2 hp2 hw2
  subst hu2
  subst hp2
  subst hw2
  exact ⟨rfl, rfl, rfl, rfl⟩

/-- A processed snapshot with only the posts file present. -/
def pf_posts_only : ProcessedFiles :=
  { users_parquet := none
  , posts_parquet := some [transform_post_row "2024-01-01T00:00:00" post_hi] }

/-- C6 witness: the tolerance theorem at a concrete snapshot missing
the users file, over the clean store. -/
theorem load_all_missing_file_tolerance_witness :
    pf_posts_only.users_parquet = none
  ∧ st_ok.posts_write_error = none
  ∧ (load_all_data pf_posts_only st_ok).2.users.count = 0
  ∧ ((load_all_data pf_posts_only st_ok).2.users.error).isSome = true
  ∧ (load_all_data pf_posts_only st_ok).2.posts
      = { table := "posts"
        , count := (clean_dataframe_for_db_posts
            [transform_post_row "2024-01-01T00:00:00" post_hi]).length
        , error := none } :=
  ⟨rfl, rfl,
   (load_all_missing_file_tolerance pf_posts_only st_ok
     [transform_post_row "2024-01-01T00:00:00" post_hi] rfl rfl rfl).1,
   (load_all_missing_file_tolerance pf_posts_only st_ok
     [transform_post_row "2024-01-01T00:00:00" post_hi] rfl rfl rfl).2.1,
   (load_all_missing_file_tolerance pf_posts_only st_ok
     [transform_post_row "2024-01-01T00:00:00" post_hi] rfl rfl rfl).2.2.1⟩

/-! ## C7: per-query failure isolation in generate_report -/

/-- C7: during report generation each of the three fixed queries runs
in its own try/except; when exactly one fails, its report entry is the
error entry (error string, empty data, record count 0) while the other
two queries still execute and their results are recorded. -/
theorem report_query_isolation (st : Storage) (env : AnalyticsEnv) :
    (∀ m : String,
       env.user_statistics_error = some m →
       env.post_statistics_error = none →
       env.user_post_activity_error = none →
         (generate_report env st).user_statistics = QueryOutcome.err m
       ∧ ((generate_report env st).user_statistics).record_count = 0
       ∧ ((generate_report env st).user_statistics).data = []
       ∧ (generate_report env st).post_statistics
           = QueryOutcome.ok [post_statistics st]
       ∧ (generate_report env st).user_post_activity
           = QueryOutcome.ok (user_post_activity st))
  ∧ (∀ m : String,
       env.user_statistics_error = none →
       env.post_statistics_error = some m →
       env.user_post_activity_error = none →
         (generate_report env st).post_statistics = QueryOutcome.err m
       ∧ ((generate_report env st).post_statistics).record_count = 0
       ∧ ((generate_report env st).post_statistics).data = []
       ∧ (generate_report env st).user_statistics
           = QueryOutcome.ok [user_statistics st]
       ∧ (generate_report env st).user_post_activity
           = QueryOutcome.ok (user_post_activity st))
  ∧ (∀ m : String,
       env.user_statistics_error = none →
       env.post_statistics_error = none →
       env.user_post_activity_error = some m →
         (generate_report env st).user_post_activity = QueryOutcome.err m
       ∧ ((generate_report env st).user_post_activity).record_count = 0
       ∧ ((generate_report env st).user_post_activity).data = []
       ∧ (generate_report env st).user_statistics
           = QueryOutcome.ok [user_statistics st]
       ∧ (generate_report env st).post_statistics
           = QueryOutcome.ok [post_statistics st]) := by
  obtain ⟨e1, e2, e3⟩ := env
  refine ⟨?_, ?_, ?_⟩ <;> intro m h1 h2 h3 <;> simp only at h1 h2 h3 <;>
    subst h1 <;> subst h2 <;> subst h3 <;> exact ⟨rfl, rfl, rfl, rfl, rfl⟩

/-- The failure environment in which only the first analytics query
fails. -/
def env_first_fails : AnalyticsEnv :=
  { user_statistics_error := some "no such table: users"
  , post_statistics_error := none
  , user_post_activity_error := none }

/-- C7 witness: the isolation theorem at a concrete environment in
which only the user-statistics query fails, over the clean store. -/
theorem report_query_isolation_witness :
    env_first_fails.user_statistics_error = some "no such table: users"
  ∧ (generate_report env_first_fails st_ok).user_statistics
      = QueryOutcome.err "no such table: users"
  ∧ ((generate_report env_first_fails st_ok).user_statistics).record_count = 0
  ∧ (generate_report env_first_fails st_ok).post_statistics
      = QueryOutcome.ok [post_statistics st_ok]
  ∧ (generate_report env_first_fails st_ok).user_post_activity
      = QueryOutcome.ok (user_post_activity st_ok) :=
  ⟨rfl,
   ((report_query_isolation st_ok env_first_fails).1
     "no such table: users" rfl rfl rfl).1,
   ((report_query_isolation st_ok env_first_fails).1
     "no such table: users" rfl rfl rfl).2.1,
   ((report_query_isolation st_ok env_first_fails).1
     "no such table: users" rfl rfl rfl).2.2.2.1,
   ((report_query_isolation st_ok env_first_fails).1
     "no such table: users" rfl rfl rfl).2.2.2.2⟩
